import Mathlib

/-!
Verification of the Auroraswap MasterChef APR collector (`src/auroraswap.py`).

The Python module is embedded shallowly:
* Python floats are modelled as exact rationals (`ℚ`); the claims are about
  the algebraic structure of the formulas, not rounding.
* Python exceptions are modelled with `Except PyErr`; attribute access on a
  possibly-`None` value, dictionary lookup and division each get an explicit
  helper mirroring the corresponding Python failure mode.
* External helpers imported from `multifarm_masterchef.*` (price fetching,
  `calculate_apy`, the per-type metric builders, the five token-type probe
  functions) are not part of `src/`; they are modelled as abstract components
  of an `Env` / `Probes` record, since the claims only concern how
  `auroraswap.py` combines their results.
* Contract calls are modelled by a `ChainData` record (the values the
  masterchef contract returns) and a `Nat → RawPool` view of `poolInfo`.
-/

/-- Token type tags from `multifarm_masterchef.aurora.enums.TokenTypeEnum`. -/
inductive TokenTypeEnum where
  | UNI
  | ERC20
  | CURVE
  | STABLESWAP
  | VAULT
  deriving DecidableEq, Repr

/-- Classification result for one token address
(`multifarm_masterchef.aurora.serializers.PoolToken`). -/
structure PoolToken where
  address : String
  symbol : String
  type : TokenTypeEnum
  tokens : List String
  deriving DecidableEq, Repr

/-- Symbol/address pair of one side of an LP pair, as exposed by the metric
records (`metrics.token0` / `metrics.token1`). -/
structure TokenMeta where
  symbol : String
  address : String
  deriving DecidableEq, Repr

/-- Per-pool metric record produced by `get_erc20_metrics` / `get_uni_metrics`:
the fields `auroraswap.py` reads from it. -/
structure Metrics where
  token0 : TokenMeta
  token1 : TokenMeta
  staked_tvl : ℚ
  deriving DecidableEq, Repr

/-- One pool of the masterchef
(`multifarm_masterchef.aurora.serializers.PoolInfo`); `pool_token` and
`metrics` start out as Python `None` and are filled in later. -/
structure PoolInfo where
  address : String
  alloc_points : Nat
  deposit_fee : Nat
  pool_token : Option PoolToken
  metrics : Option Metrics
  deriving DecidableEq, Repr

/-- Aggregate contract data
(`multifarm_masterchef.aurora.serializers.MasterChefData`). -/
structure MasterChefData where
  rewards_per_week : ℚ
  pool_count : Nat
  total_alloc_points : Nat
  reward_token_address : String
  deriving DecidableEq, Repr

/-- APR record (`multifarm_masterchef.models.AprInfo`); every field is
nullable in the database, hence `Option ℚ`. -/
structure AprInfo where
  apr_yearly : Option ℚ
  apr_weekly : Option ℚ
  apr_daily : Option ℚ
  apy_yearly : Option ℚ
  fee_apr_yearly : Option ℚ
  reward_token_a_apr_yearly : Option ℚ
  reward_token_b_apr_yearly : Option ℚ
  deriving DecidableEq, Repr

/-- Token pair description (`multifarm_masterchef.models.TokenInfo`). -/
structure TokenInfo where
  token_a : String
  token_b : String
  reward_token_a : String
  reward_token_b : String
  token_a_address : String
  token_b_address : String
  deriving DecidableEq, Repr

/-- Pool links (`multifarm_masterchef.models.PoolLinks`). -/
structure PoolLinks where
  investment_link : String
  staking_link : String
  deriving DecidableEq, Repr

/-- Fee schedule (`multifarm_masterchef.models.PoolFees`). -/
structure PoolFees where
  deposit_fee : Nat
  withdraw_fee : Nat
  harvest_lockup : Bool
  harvest_lockup_info : String
  transfer_tax : Bool
  transfer_tax_info : String
  anti_whale : Nat
  deriving DecidableEq, Repr

/-- Yield type tag (`multifarm_masterchef.models.YieldType`). -/
inductive YieldType where
  | LP_STAKE
  | SINGLE_STAKE
  deriving DecidableEq, Repr

/-- Pool payload of a farm update (`multifarm_masterchef.models.SinglePool`). -/
structure SinglePool where
  asset : String
  tvl_staked : Option Int
  date_added : String
  other_pool_economics_infos : String
  asset_address : String
  audit_info : String
  yield_type : YieldType
  token_info : TokenInfo
  apr_info : AprInfo
  pool_links : PoolLinks
  fees : PoolFees
  deriving DecidableEq, Repr

/-- Farm update record (`multifarm_masterchef.models.FarmUpdate`). -/
structure FarmUpdate where
  active : Bool
  farm_id : String
  url : String
  blockchain : String
  exchange_name : String
  exchange_url : String
  pool : SinglePool
  deriving DecidableEq, Repr

/-- The Python exceptions the embedded code can raise. -/
inductive PyErr where
  | zeroDivisionError
  | attributeError
  | keyError
  deriving DecidableEq, Repr

/-- Python `/` on numbers: raises `ZeroDivisionError` on a zero denominator. -/
def pydiv (a b : ℚ) : Except PyErr ℚ :=
  if b = 0 then .error .zeroDivisionError else .ok (a / b)

/-- Python attribute access through a possibly-`None` reference: `None.attr`
raises `AttributeError`. -/
def pyattr {α : Type} : Option α → Except PyErr α
  | some a => .ok a
  | none => .error .attributeError

/-- Python `d[k]` on a dictionary: raises `KeyError` when the key is absent. -/
def pyget (d : String → Option ℚ) (k : String) : Except PyErr ℚ :=
  match d k with
  | some v => .ok v
  | none => .error .keyError

/-- Python `int()` on a number: truncation toward zero. -/
def pyint (q : ℚ) : Int :=
  Int.tdiv q.num q.den

/-- Python conditional `f(x) if x else None` on a nullable number: both `None`
and the number `0` are falsy. -/
def truthyMap (f : ℚ → ℚ) : Option ℚ → Option ℚ
  | none => none
  | some w => if w = 0 then none else some (f w)

/-- Class constant `Auroraswap.FARM_URL`. -/
def FARM_URL : String := "https://app.auroraswap.net/"

/-- Class constant `Auroraswap.FARM_ID` (`Farm.AURORASWAP`). -/
def FARM_ID : String := "AURORASWAP"

/-- Class constant `Auroraswap.EXCHANGE_NAME` (`Exchange.AURORASWAP`). -/
def EXCHANGE_NAME : String := "AURORASWAP"

/-- Class constant `Auroraswap.EXCHANGE_URL`. -/
def EXCHANGE_URL : String := "https://app.auroraswap.net/"

/-- Class constant `Auroraswap.BLOCKCHAIN` (`Blockchain.AURORA`). -/
def BLOCKCHAIN : String := "AURORA"

/-- Class constant `Auroraswap.ACTIVE`. -/
def ACTIVE : Bool := true

/-- Class constant `Auroraswap.REWARD_TOKEN_TICKER`. -/
def REWARD_TOKEN_TICKER : String := "BRL"

/-- Class constant `Auroraswap.REWARD_TOKEN_ADDRESS`. -/
def REWARD_TOKEN_ADDRESS : String := "0x12c87331f086c3c926248f964f8702c0842fd77f"

/-- Class constant `Auroraswap.POOLS_LINK`. -/
def POOLS_LINK : String := "https://app.auroraswap.net/pools"

/-- External helpers the class calls, modelled as abstract functions:
`prices` is the `self.prices` dictionary filled by `get_tokens_prices`;
`calculate_apy` comes from `multifarm_masterchef.helpers`; the two metric
builders come from `multifarm_masterchef.aurora.helpers` (their internals
never matter to `auroraswap.py`). -/
structure Env where
  prices : String → Option ℚ
  calculate_apy : ℚ → ℚ
  get_erc20_metrics : PoolToken → Metrics
  get_uni_metrics : PoolToken → Metrics

/-- Outcomes of the five type-probe helpers from
`multifarm_masterchef.aurora.helpers` for a given address: `none` models the
probe raising `ValueError` (the failure `get_token` catches), `some` a
successful classification. The staking address argument is threaded but never
inspected here. -/
structure Probes where
  curve : String → Option PoolToken
  stableswap : String → Option PoolToken
  uni : String → Option PoolToken
  vault : String → Option PoolToken
  erc20 : String → Option PoolToken

/-- `Auroraswap.get_token`: try the five probes in order, catching each
`ValueError` and returning the first successful classification; falls off the
end (Python `None`) when every probe fails. -/
def get_token (pr : Probes) (address staking_address : String) : Option PoolToken :=
  match pr.curve address with
  | some info => some info
  | none =>
  match pr.stableswap address with
  | some info => some info
  | none =>
  match pr.uni address with
  | some info => some info
  | none =>
  match pr.vault address with
  | some info => some info
  | none =>
  match pr.erc20 address with
  | some info => some info
  | none => none

/-- The probe outcomes in the fixed source order, indexed 0..4. -/
def probeOutcome (pr : Probes) (a : String) (i : Fin 5) : Option PoolToken :=
  match i with
  | ⟨0, _⟩ => pr.curve a
  | ⟨1, _⟩ => pr.stableswap a
  | ⟨2, _⟩ => pr.uni a
  | ⟨3, _⟩ => pr.vault a
  | ⟨4, _⟩ => pr.erc20 a

/-- The probe outcomes as an ordered list. -/
def probeOutcomes (pr : Probes) (a : String) : List (Option PoolToken) :=
  [pr.curve a, pr.stableswap a, pr.uni a, pr.vault a, pr.erc20 a]

/-- `Auroraswap.get_pool_metrics`: attach metrics to a pool according to its
token type; a pool whose `pool_token` is `None` raises `AttributeError` at
`pool.pool_token.type`. -/
def get_pool_metrics (env : Env) (pool : PoolInfo) : Except PyErr PoolInfo :=
  match pyattr pool.pool_token with
  | .error e => .error e
  | .ok pt =>
    let pool1 :=
      if pt.type = TokenTypeEnum.ERC20 then
        { pool with metrics := some (env.get_erc20_metrics pt) }
      else pool
    let pool2 :=
      if pt.type = TokenTypeEnum.UNI then
        { pool1 with metrics := some (env.get_uni_metrics pt) }
      else pool1
    .ok pool2

/-- `Auroraswap._get_uni_pool_info`: build the farm update for an LP pool. -/
def _get_uni_pool_info (env : Env) (pool_info : PoolInfo) (mcd : MasterChefData) :
    Except PyErr FarmUpdate :=
  match pyattr pool_info.metrics with
  | .error e => .error e
  | .ok metrics =>
  let a_token := metrics.token0
  let b_token := metrics.token1
  match pydiv (pool_info.alloc_points : ℚ) (mcd.total_alloc_points : ℚ) with
  | .error e => .error e
  | .ok share =>
  let pool_rewards_per_week := share * mcd.rewards_per_week
  match pyget env.prices (REWARD_TOKEN_ADDRESS.toLower) with
  | .error e => .error e
  | .ok reward_price =>
  let usd_per_week := pool_rewards_per_week * reward_price
  match pydiv usd_per_week metrics.staked_tvl with
  | .error e => .error e
  | .ok w =>
  let weekly_apr := w * 100
  let daily_apr := weekly_apr / 7
  let yearly_apr := weekly_apr * 52
  let token_info : TokenInfo :=
    { token_a := a_token.symbol
      token_b := b_token.symbol
      reward_token_a := REWARD_TOKEN_TICKER
      reward_token_b := ""
      token_a_address := a_token.address
      token_b_address := b_token.address }
  let apr_info : AprInfo :=
    { apr_yearly := some yearly_apr
      apr_weekly := some weekly_apr
      apr_daily := some daily_apr
      apy_yearly := some (env.calculate_apy yearly_apr)
      fee_apr_yearly := some yearly_apr
      reward_token_a_apr_yearly := some yearly_apr
      reward_token_b_apr_yearly := some 0 }
  let pool_links : PoolLinks :=
    { investment_link := POOLS_LINK, staking_link := POOLS_LINK }
  let fees : PoolFees :=
    { deposit_fee := pool_info.deposit_fee
      withdraw_fee := 0
      harvest_lockup := false
      harvest_lockup_info := ""
      transfer_tax := false
      transfer_tax_info := ""
      anti_whale := 0 }
  match pyattr pool_info.pool_token with
  | .error e => .error e
  | .ok pt =>
  let pool : SinglePool :=
    { asset := pt.symbol
      tvl_staked := some (pyint metrics.staked_tvl)
      date_added := "01/01/2021"
      other_pool_economics_infos := ""
      asset_address := pt.address
      audit_info := ""
      yield_type := YieldType.LP_STAKE
      token_info := token_info
      apr_info := apr_info
      pool_links := pool_links
      fees := fees }
  .ok
    { active := ACTIVE
      farm_id := FARM_ID
      url := FARM_URL
      blockchain := BLOCKCHAIN
      exchange_name := EXCHANGE_NAME
      exchange_url := EXCHANGE_URL
      pool := pool }

/-- `Auroraswap._get_single_pool_info`: build the farm update for a
single-stake pool; the APR fields are guarded by Python truthiness on the
previous value (`x if x else None`). -/
def _get_single_pool_info (env : Env) (pool_info : PoolInfo) (mcd : MasterChefData) :
    Except PyErr FarmUpdate :=
  match pydiv (pool_info.alloc_points : ℚ) (mcd.total_alloc_points : ℚ) with
  | .error e => .error e
  | .ok share =>
  let pool_rewards_per_week := share * mcd.rewards_per_week
  match pyget env.prices (REWARD_TOKEN_ADDRESS.toLower) with
  | .error e => .error e
  | .ok reward_price =>
  let usd_per_week := pool_rewards_per_week * reward_price
  let weekly_res : Except PyErr (Option ℚ) :=
    match pool_info.metrics with
    | some m =>
      match pydiv usd_per_week m.staked_tvl with
      | .error e => .error e
      | .ok w => .ok (some (w * 100))
    | none => .ok none
  match weekly_res with
  | .error e => .error e
  | .ok weekly_apr =>
  let daily_apr := truthyMap (fun w => w / 7) weekly_apr
  let yearly_apr := truthyMap (fun w => w * 52) weekly_apr
  match pyattr pool_info.pool_token with
  | .error e => .error e
  | .ok a_token =>
  let token_info : TokenInfo :=
    { token_a := a_token.symbol
      token_b := ""
      reward_token_a := REWARD_TOKEN_TICKER
      reward_token_b := ""
      token_a_address := a_token.address
      token_b_address := "" }
  let apr_info : AprInfo :=
    { apr_yearly := yearly_apr
      apr_weekly := weekly_apr
      apr_daily := daily_apr
      apy_yearly := truthyMap env.calculate_apy yearly_apr
      fee_apr_yearly := yearly_apr
      reward_token_a_apr_yearly := yearly_apr
      reward_token_b_apr_yearly := some 0 }
  let pool_links : PoolLinks :=
    { investment_link := POOLS_LINK, staking_link := POOLS_LINK }
  let fees : PoolFees :=
    { deposit_fee := pool_info.deposit_fee
      withdraw_fee := 0
      harvest_lockup := false
      harvest_lockup_info := ""
      transfer_tax := false
      transfer_tax_info := ""
      anti_whale := 0 }
  let pool : SinglePool :=
    { asset := a_token.symbol
      tvl_staked := pool_info.metrics.map (fun m => pyint m.staked_tvl)
      date_added := "01/01/2021"
      other_pool_economics_infos := ""
      asset_address := a_token.address
      audit_info := ""
      yield_type := YieldType.SINGLE_STAKE
      token_info := token_info
      apr_info := apr_info
      pool_links := pool_links
      fees := fees }
  .ok
    { active := ACTIVE
      farm_id := FARM_ID
      url := FARM_URL
      blockchain := BLOCKCHAIN
      exchange_name := EXCHANGE_NAME
      exchange_url := EXCHANGE_URL
      pool := pool }

/-- Modelled from the spec: `FarmUpdate.format_for_db` from
`multifarm_masterchef.models` is missing from `src/`; it serializes the record
for the database and is modelled as the identity on the record. -/
def FarmUpdate.format_for_db (fu : FarmUpdate) : FarmUpdate := fu

/-- Body of the `calculate_supply_aprs` loop for one pool: dispatch on the
token type; a pool whose `pool_token` is `None` raises `AttributeError` at
`pool_info.pool_token.type`. -/
def supplyAprStep (env : Env) (mcd : MasterChefData) (pool_info : PoolInfo) :
    Except PyErr (Option FarmUpdate) :=
  match pyattr pool_info.pool_token with
  | .error e => .error e
  | .ok pt =>
    if pt.type = TokenTypeEnum.UNI then
      if pool_info.metrics.isSome then
        match _get_uni_pool_info env pool_info mcd with
        | .error e => .error e
        | .ok fu => .ok (some fu)
      else .ok none
    else if pt.type = TokenTypeEnum.ERC20 then
      if pool_info.metrics.isSome then
        match _get_single_pool_info env pool_info mcd with
        | .error e => .error e
        | .ok fu => .ok (some fu)
      else .ok none
    else .ok none

/-- `Auroraswap.calculate_supply_aprs`: fold the per-pool step over the pool
list, appending `farm_update.format_for_db()` whenever the step produced a
(truthy) farm update. -/
def calculate_supply_aprs (env : Env) (mcd : MasterChefData) :
    List PoolInfo → Except PyErr (List FarmUpdate)
  | [] => .ok []
  | p :: ps =>
    match supplyAprStep env mcd p with
    | .error e => .error e
    | .ok fu? =>
      match calculate_supply_aprs env mcd ps with
      | .error e => .error e
      | .ok rest =>
        match fu? with
        | some fu => .ok (fu.format_for_db :: rest)
        | none => .ok rest

/-- Raw values the masterchef contract returns for the globals read by
`get_masterchef_data`. -/
structure ChainData where
  brlPerBlock : Nat
  multiplier : Nat
  poolLength : Nat
  totalAllocPoint : Nat
  brl : String
  deriving DecidableEq, Repr

/-- `Auroraswap.get_masterchef_data`: read the contract globals and convert
the per-block reward to a weekly reward pool. -/
def get_masterchef_data (c : ChainData) : MasterChefData :=
  { rewards_per_week :=
      (c.brlPerBlock : ℚ) / (10 : ℚ) ^ 18 * (c.multiplier : ℚ) * 604800 / (11 / 10 : ℚ)
    pool_count := c.poolLength
    total_alloc_points := c.totalAllocPoint
    reward_token_address := c.brl.toLower }

/-- One row of the contract's `poolInfo` array. -/
structure RawPool where
  lp_token : String
  alloc_points : Nat
  last_reward_block : Nat
  acc_brl_per_share : Nat
  deposit_fee : Nat
  deriving DecidableEq, Repr

/-- `Auroraswap.get_pool_info`: keep the LP token address, the allocation
points and the deposit fee of one `poolInfo` row. -/
def get_pool_info (chain : Nat → RawPool) (pool_index : Nat) : PoolInfo :=
  { address := (chain pool_index).lp_token
    alloc_points := (chain pool_index).alloc_points
    deposit_fee := (chain pool_index).deposit_fee
    pool_token := none
    metrics := none }

/-- Python `dict.setdefault` step of `get_pools_info`: insert the pool keyed
by its address unless the address is already present (first pool wins). -/
def insertPool (acc : List PoolInfo) (p : PoolInfo) : List PoolInfo :=
  if acc.any (fun q => q.address == p.address) then acc else acc ++ [p]

/-- The `pool_infos` dictionary of `get_pools_info` after the `setdefault`
loop, as its insertion-ordered list of values. -/
def dedupPools (ps : List PoolInfo) : List PoolInfo :=
  ps.foldl insertPool []

/-- One assignment `pool_infos[token_info.address].pool_token = token_info`:
raises `KeyError` when the address is not a key of the dictionary. -/
def assignToken (dict : List PoolInfo) (t : PoolToken) : Except PyErr (List PoolInfo) :=
  if dict.any (fun p => p.address == t.address) then
    .ok (dict.map (fun p =>
      if p.address == t.address then { p with pool_token := some t } else p))
  else .error .keyError

/-- The token-assignment loop of `get_pools_info`: classify every key in
order and store each result on its pool; a key whose classification came back
`None` raises `AttributeError` at `token_info.address`. -/
def assignTokens (classify : String → Option PoolToken) :
    List PoolInfo → List String → Except PyErr (List PoolInfo)
  | dict, [] => .ok dict
  | dict, addr :: rest =>
    match classify addr with
    | none => .error .attributeError
    | some t =>
      match assignToken dict t with
      | .error e => .error e
      | .ok dict2 => assignTokens classify dict2 rest

/-- `Auroraswap.get_pools_info`: read every pool row, de-duplicate by LP
token address keeping the first occurrence, then classify each distinct
address and attach the result. `classify` is `get_token` partially applied to
the probe outcomes and the staking address. -/
def get_pools_info (chain : Nat → RawPool) (classify : String → Option PoolToken)
    (pool_count : Nat) : Except PyErr (List PoolInfo) :=
  let pools := (List.range pool_count).map (get_pool_info chain)
  let dict := dedupPools pools
  assignTokens classify dict (dict.map (fun p => p.address))

/-- The farm update `_get_uni_pool_info` returns on its success path, as an
explicit record in terms of the inputs. -/
def uniFarmUpdate (env : Env) (pool_info : PoolInfo) (mcd : MasterChefData)
    (pt : PoolToken) (m : Metrics) (price : ℚ) : FarmUpdate :=
  let weekly_apr :=
    (pool_info.alloc_points : ℚ) / (mcd.total_alloc_points : ℚ) * mcd.rewards_per_week
      * price / m.staked_tvl * 100
  { active := ACTIVE
    farm_id := FARM_ID
    url := FARM_URL
    blockchain := BLOCKCHAIN
    exchange_name := EXCHANGE_NAME
    exchange_url := EXCHANGE_URL
    pool :=
      { asset := pt.symbol
        tvl_staked := some (pyint m.staked_tvl)
        date_added := "01/01/2021"
        other_pool_economics_infos := ""
        asset_address := pt.address
        audit_info := ""
        yield_type := YieldType.LP_STAKE
        token_info :=
          { token_a := m.token0.symbol
            token_b := m.token1.symbol
            reward_token_a := REWARD_TOKEN_TICKER
            reward_token_b := ""
            token_a_address := m.token0.address
            token_b_address := m.token1.address }
        apr_info :=
          { apr_yearly := some (weekly_apr * 52)
            apr_weekly := some weekly_apr
            apr_daily := some (weekly_apr / 7)
            apy_yearly := some (env.calculate_apy (weekly_apr * 52))
            fee_apr_yearly := some (weekly_apr * 52)
            reward_token_a_apr_yearly := some (weekly_apr * 52)
            reward_token_b_apr_yearly := some 0 }
        pool_links := { investment_link := POOLS_LINK, staking_link := POOLS_LINK }
        fees :=
          { deposit_fee := pool_info.deposit_fee
            withdraw_fee := 0
            harvest_lockup := false
            harvest_lockup_info := ""
            transfer_tax := false
            transfer_tax_info := ""
            anti_whale := 0 } } }

/-- The farm update `_get_single_pool_info` returns on its success path,
parametrized by the computed weekly APR and staked TVL options. -/
def singleFarmUpdate (env : Env) (pool_info : PoolInfo) (pt : PoolToken)
    (weekly_apr : Option ℚ) (tvl : Option Int) : FarmUpdate :=
  { active := ACTIVE
    farm_id := FARM_ID
    url := FARM_URL
    blockchain := BLOCKCHAIN
    exchange_name := EXCHANGE_NAME
    exchange_url := EXCHANGE_URL
    pool :=
      { asset := pt.symbol
        tvl_staked := tvl
        date_added := "01/01/2021"
        other_pool_economics_infos := ""
        asset_address := pt.address
        audit_info := ""
        yield_type := YieldType.SINGLE_STAKE
        token_info :=
          { token_a := pt.symbol
            token_b := ""
            reward_token_a := REWARD_TOKEN_TICKER
            reward_token_b := ""
            token_a_address := pt.address
            token_b_address := "" }
        apr_info :=
          { apr_yearly := truthyMap (fun w => w * 52) weekly_apr
            apr_weekly := weekly_apr
            apr_daily := truthyMap (fun w => w / 7) weekly_apr
            apy_yearly := truthyMap env.calculate_apy (truthyMap (fun w => w * 52) weekly_apr)
            fee_apr_yearly := truthyMap (fun w => w * 52) weekly_apr
            reward_token_a_apr_yearly := truthyMap (fun w => w * 52) weekly_apr
            reward_token_b_apr_yearly := some 0 }
        pool_links := { investment_link := POOLS_LINK, staking_link := POOLS_LINK }
        fees :=
          { deposit_fee := pool_info.deposit_fee
            withdraw_fee := 0
            harvest_lockup := false
            harvest_lockup_info := ""
            transfer_tax := false
            transfer_tax_info := ""
            anti_whale := 0 } } }

/-- Concrete LP-side token metadata used by witnesses. -/
def tm0 : TokenMeta := { symbol := "WETH", address := "0xt0" }

/-- Concrete LP-side token metadata used by witnesses. -/
def tm1 : TokenMeta := { symbol := "USDC", address := "0xt1" }

/-- Concrete metric record with a positive staked TVL. -/
def mW : Metrics := { token0 := tm0, token1 := tm1, staked_tvl := 10 }

/-- Concrete metric record with zero staked TVL. -/
def mZero : Metrics := { token0 := tm0, token1 := tm1, staked_tvl := 0 }

/-- Concrete uniswap-pair token classification. -/
def tokA : PoolToken :=
  { address := "0xaaa", symbol := "ALP", type := TokenTypeEnum.UNI, tokens := ["0xt0", "0xt1"] }

/-- Concrete junk classification used to vary later probes. -/
def tokB : PoolToken :=
  { address := "0xbbb", symbol := "BAD", type := TokenTypeEnum.ERC20, tokens := [] }

/-- Concrete curve classification (a known type that is neither UNI nor ERC20). -/
def tokC : PoolToken :=
  { address := "0xccc", symbol := "CRV", type := TokenTypeEnum.CURVE, tokens := [] }

/-- Concrete plain-ERC20 classification. -/
def tokE : PoolToken :=
  { address := "0xeee", symbol := "BRL", type := TokenTypeEnum.ERC20, tokens := ["0xeee"] }

/-- Concrete probes: only the uniswap probe succeeds, and only on `0xaaa`. -/
def prW : Probes :=
  { curve := fun _ => none
    stableswap := fun _ => none
    uni := fun a => if a = "0xaaa" then some tokA else none
    vault := fun _ => none
    erc20 := fun _ => none }

/-- Concrete probes agreeing with `prW` up to the uniswap probe but with
different vault/erc20 probes, to show the later probes are never consulted. -/
def prW2 : Probes :=
  { curve := fun _ => none
    stableswap := fun _ => none
    uni := fun a => if a = "0xaaa" then some tokA else none
    vault := fun _ => some tokB
    erc20 := fun _ => some tokB }

/-- Concrete environment: the BRL price is 2, `calculate_apy` adds one, the
metric builders return `mW`. -/
def envW : Env :=
  { prices := fun _ => some 2
    calculate_apy := fun x => x + 1
    get_erc20_metrics := fun _ => mW
    get_uni_metrics := fun _ => mW }

/-- Concrete masterchef data: 7 BRL per week, 2 total allocation points. -/
def mcdW : MasterChefData :=
  { rewards_per_week := 7
    pool_count := 2
    total_alloc_points := 2
    reward_token_address := REWARD_TOKEN_ADDRESS }

/-- Concrete LP pool with metrics and one allocation point. -/
def pW1 : PoolInfo :=
  { address := "0xaaa", alloc_points := 1, deposit_fee := 0
    pool_token := some tokA, metrics := some mW }

/-- Concrete single-stake pool with metrics and one allocation point. -/
def pW4 : PoolInfo :=
  { address := "0xeee", alloc_points := 1, deposit_fee := 0
    pool_token := some tokE, metrics := some mW }

/-- Concrete single-stake pool with zero allocation points (weekly APR 0). -/
def pW7 : PoolInfo :=
  { address := "0xeee", alloc_points := 0, deposit_fee := 0
    pool_token := some tokE, metrics := some mW }

/-- Concrete single-stake pool whose metrics report zero staked TVL. -/
def pZeroErc : PoolInfo :=
  { address := "0xeee", alloc_points := 1, deposit_fee := 0
    pool_token := some tokE, metrics := some mZero }

/-- Concrete LP pool whose metrics report zero staked TVL. -/
def pZeroUni : PoolInfo :=
  { address := "0xaaa", alloc_points := 1, deposit_fee := 0
    pool_token := some tokA, metrics := some mZero }

/-- Concrete pool whose token matched no probe at all (`pool_token` is None). -/
def pNone : PoolInfo :=
  { address := "0xnul", alloc_points := 1, deposit_fee := 0
    pool_token := none, metrics := none }

/-- Concrete pool classified as curve (known type, neither UNI nor ERC20). -/
def pCurve : PoolInfo :=
  { address := "0xccc", alloc_points := 3, deposit_fee := 0
    pool_token := some tokC, metrics := none }

/-- The farm update the loop step computes for `pW4` (weekly APR 70,
staked TVL 10). -/
def fuW4 : FarmUpdate :=
  singleFarmUpdate envW pW4 tokE (some 70) (some (pyint mW.staked_tvl))

/-- Concrete `poolInfo` rows: indices 0 and 2 report the same LP token. -/
def chainW : Nat → RawPool := fun i =>
  if i = 0 then
    { lp_token := "0xaaa", alloc_points := 5, last_reward_block := 0
      acc_brl_per_share := 0, deposit_fee := 1 }
  else if i = 1 then
    { lp_token := "0xbbb", alloc_points := 7, last_reward_block := 0
      acc_brl_per_share := 0, deposit_fee := 2 }
  else
    { lp_token := "0xaaa", alloc_points := 9, last_reward_block := 0
      acc_brl_per_share := 0, deposit_fee := 3 }

/-- Concrete total classification that tags every address as ERC20 and
preserves the address. -/
def classifyW : String → Option PoolToken := fun a =>
  some { address := a, symbol := "TOK", type := TokenTypeEnum.ERC20, tokens := [a] }

/-- The deduplicated, classified pool the C10 witness checks (pool row 0). -/
def piW10 : PoolInfo :=
  { address := "0xaaa", alloc_points := 5, deposit_fee := 1
    pool_token := some { address := "0xaaa", symbol := "TOK"
                         type := TokenTypeEnum.ERC20, tokens := ["0xaaa"] }
    metrics := none }

/-- The second pool of the C10 witness output (pool row 1). -/
def pjW10 : PoolInfo :=
  { address := "0xbbb", alloc_points := 7, deposit_fee := 2
    pool_token := some { address := "0xbbb", symbol := "TOK"
                         type := TokenTypeEnum.ERC20, tokens := ["0xbbb"] }
    metrics := none }

/-! ## Theorems -/

/-- `get_token` computes the first successful outcome of the ordered probe
list. -/
theorem get_token_eq_findSome (pr : Probes) (a s : String) :
    get_token pr a s = (probeOutcomes pr a).findSome? id := by
  unfold get_token probeOutcomes
  cases pr.curve a <;> cases pr.stableswap a <;> cases pr.uni a <;>
    cases pr.vault a <;> cases pr.erc20 a <;> simp [List.findSome?]

/-- If the probes before `i` fail and probe `i` succeeds, `get_token` returns
probe `i`'s classification. -/
theorem get_token_of_first_success (pr : Probes) (a s : String) (i : Fin 5)
    (t : PoolToken)
    (hfail : ∀ j : Fin 5, j < i → probeOutcome pr a j = none)
    (hsucc : probeOutcome pr a i = some t) :
    get_token pr a s = some t := by
  fin_cases i
  · have hc : pr.curve a = some t := hsucc
    simp [get_token, hc]
  · have h0 : pr.curve a = none := hfail ⟨0, by norm_num⟩ (by decide)
    have hc : pr.stableswap a = some t := hsucc
    simp [get_token, h0, hc]
  · have h0 : pr.curve a = none := hfail ⟨0, by norm_num⟩ (by decide)
    have h1 : pr.stableswap a = none := hfail ⟨1, by norm_num⟩ (by decide)
    have hc : pr.uni a = some t := hsucc
    simp [get_token, h0, h1, hc]
  · have h0 : pr.curve a = none := hfail ⟨0, by norm_num⟩ (by decide)
    have h1 : pr.stableswap a = none := hfail ⟨1, by norm_num⟩ (by decide)
    have h2 : pr.uni a = none := hfail ⟨2, by norm_num⟩ (by decide)
    have hc : pr.vault a = some t := hsucc
    simp [get_token, h0, h1, h2, hc]
  · have h0 : pr.curve a = none := hfail ⟨0, by norm_num⟩ (by decide)
    have h1 : pr.stableswap a = none := hfail ⟨1, by norm_num⟩ (by decide)
    have h2 : pr.uni a = none := hfail ⟨2, by norm_num⟩ (by decide)
    have h3 : pr.vault a = none := hfail ⟨3, by norm_num⟩ (by decide)
    have hc : pr.erc20 a = some t := hsucc
    simp [get_token, h0, h1, h2, h3, hc]

/-- C2: classification probes run in the fixed order curve, stableswap,
uniswap, vault, ERC20; the first success is returned, and no later probe is
attempted — any probe set agreeing up to the first success yields the same
result regardless of its later probes. -/
theorem get_token_probe_order (pr1 pr2 : Probes) (a s : String) (i : Fin 5)
    (t : PoolToken)
    (hfail : ∀ j : Fin 5, j < i → probeOutcome pr1 a j = none)
    (hsucc : probeOutcome pr1 a i = some t)
    (hagree : ∀ j : Fin 5, j ≤ i → probeOutcome pr2 a j = probeOutcome pr1 a j) :
    get_token pr1 a s = some t ∧ get_token pr2 a s = some t := by
  refine ⟨get_token_of_first_success pr1 a s i t hfail hsucc, ?_⟩
  refine get_token_of_first_success pr2 a s i t ?_ ?_
  · intro j hj
    exact (hagree j (le_of_lt hj)).trans (hfail j hj)
  · exact (hagree i (le_refl i)).trans hsucc

/-- C2 witness: on `0xaaa` the curve and stableswap probes fail and the
uniswap probe succeeds; both probe sets return its result even though `prW2`
has junk vault/erc20 probes. -/
theorem get_token_probe_order_witness :
    get_token prW "0xaaa" "0xchef" = some tokA ∧
    get_token prW2 "0xaaa" "0xchef" = some tokA :=
  get_token_probe_order prW prW2 "0xaaa" "0xchef" 2 tokA
    (by decide) (by decide) (by decide)

/-- C6: a failing probe is absorbed — the result is the first success of the
remaining probes in order, and `get_token` always returns (it is a total
function into `Option`, never re-raising the caught `ValueError`). -/
theorem get_token_absorbs_failure (pr : Probes) (a s : String) (j : Fin 5)
    (hfail : probeOutcome pr a j = none) :
    get_token pr a s = ((probeOutcomes pr a).eraseIdx j.val).findSome? id := by
  rw [get_token_eq_findSome pr a s]
  fin_cases j
  · have h : pr.curve a = none := hfail
    simp [probeOutcomes, h, List.findSome?]
  · have h : pr.stableswap a = none := hfail
    cases pr.curve a <;> simp [probeOutcomes, h, List.findSome?]
  · have h : pr.uni a = none := hfail
    cases pr.curve a <;> cases pr.stableswap a <;>
      simp [probeOutcomes, h, List.findSome?]
  · have h : pr.vault a = none := hfail
    cases pr.curve a <;> cases pr.stableswap a <;> cases pr.uni a <;>
      simp [probeOutcomes, h, List.findSome?]
  · have h : pr.erc20 a = none := hfail
    cases pr.curve a <;> cases pr.stableswap a <;> cases pr.uni a <;>
      cases pr.vault a <;> simp [probeOutcomes, h, List.findSome?]

/-- C6 witness: the failing curve probe on `0xaaa` is absorbed and the chain
continues with the remaining probes, which deliver the uniswap result. -/
theorem get_token_absorbs_failure_witness :
    get_token prW "0xaaa" "0xchef" =
      ((probeOutcomes prW "0xaaa").eraseIdx (0 : Fin 5).val).findSome? id ∧
    get_token prW "0xaaa" "0xchef" = some tokA :=
  ⟨get_token_absorbs_failure prW "0xaaa" "0xchef" 0 (by decide), by decide⟩

/-- C8: the weekly reward pool is the per-block BRL reward (scaled from wei)
times the one-block multiplier, times 604800 seconds per week, with an extra
10/11 haircut (the division by 1.1 in the source). -/
theorem rewards_per_week_haircut (c : ChainData) :
    (get_masterchef_data c).rewards_per_week =
      (c.brlPerBlock : ℚ) / (10 : ℚ) ^ 18 * (c.multiplier : ℚ) * 604800 * (10 / 11) := by
  unfold get_masterchef_data
  rw [div_eq_mul_inv _ ((11 : ℚ) / 10)]
  norm_num

/-- Success-path evaluation of `_get_uni_pool_info`. -/
theorem uni_pool_eval (env : Env) (p : PoolInfo) (mcd : MasterChefData)
    (pt : PoolToken) (m : Metrics) (price : ℚ)
    (hpt : p.pool_token = some pt) (hm : p.metrics = some m)
    (htot : (mcd.total_alloc_points : ℚ) ≠ 0) (htvl : m.staked_tvl ≠ 0)
    (hprice : env.prices (REWARD_TOKEN_ADDRESS.toLower) = some price) :
    _get_uni_pool_info env p mcd = .ok (uniFarmUpdate env p mcd pt m price) := by
  unfold _get_uni_pool_info uniFarmUpdate
  rw [hpt, hm]
  simp only [pyattr, pydiv, pyget, hprice, if_neg htot, if_neg htvl]

/-- Success-path evaluation of `_get_single_pool_info` when metrics are
present. -/
theorem single_pool_eval_some (env : Env) (p : PoolInfo) (mcd : MasterChefData)
    (pt : PoolToken) (m : Metrics) (price : ℚ)
    (hpt : p.pool_token = some pt) (hm : p.metrics = some m)
    (htot : (mcd.total_alloc_points : ℚ) ≠ 0) (htvl : m.staked_tvl ≠ 0)
    (hprice : env.prices (REWARD_TOKEN_ADDRESS.toLower) = some price) :
    _get_single_pool_info env p mcd = .ok (singleFarmUpdate env p pt
      (some ((p.alloc_points : ℚ) / (mcd.total_alloc_points : ℚ) * mcd.rewards_per_week
        * price / m.staked_tvl * 100))
      (some (pyint m.staked_tvl))) := by
  unfold _get_single_pool_info singleFarmUpdate
  rw [hpt, hm]
  simp only [pyattr, pydiv, pyget, hprice, if_neg htot, if_neg htvl, Option.map_some']

/-- Success-path evaluation of `_get_single_pool_info` when metrics are
absent: null APRs throughout. -/
theorem single_pool_eval_none (env : Env) (p : PoolInfo) (mcd : MasterChefData)
    (pt : PoolToken) (price : ℚ)
    (hpt : p.pool_token = some pt) (hm : p.metrics = none)
    (htot : (mcd.total_alloc_points : ℚ) ≠ 0)
    (hprice : env.prices (REWARD_TOKEN_ADDRESS.toLower) = some price) :
    _get_single_pool_info env p mcd = .ok (singleFarmUpdate env p pt none none) := by
  unfold _get_single_pool_info singleFarmUpdate
  rw [hpt, hm]
  simp only [pyattr, pydiv, pyget, hprice, if_neg htot, Option.map_none', truthyMap]

/-- C1: for a pool classified UNI or ERC20 whose metrics are present, the
weekly APR in the `calculate_supply_aprs` output equals
allocPoints/totalAllocPoints × rewardsPerWeek × rewardPrice × 100 /
stakedTVL. -/
theorem calculate_supply_aprs_weekly_formula (env : Env) (mcd : MasterChefData)
    (p : PoolInfo) (pt : PoolToken) (m : Metrics) (price : ℚ)
    (hpt : p.pool_token = some pt)
    (htype : pt.type = TokenTypeEnum.UNI ∨ pt.type = TokenTypeEnum.ERC20)
    (hm : p.metrics = some m)
    (htot : (mcd.total_alloc_points : ℚ) ≠ 0) (htvl : m.staked_tvl ≠ 0)
    (hprice : env.prices (REWARD_TOKEN_ADDRESS.toLower) = some price) :
    (calculate_supply_aprs env mcd [p]).map
        (List.map (fun fu => fu.pool.apr_info.apr_weekly)) =
      .ok [some ((p.alloc_points : ℚ) / (mcd.total_alloc_points : ℚ)
        * mcd.rewards_per_week * price * 100 / m.staked_tvl)] := by
  have harith : (p.alloc_points : ℚ) / (mcd.total_alloc_points : ℚ)
      * mcd.rewards_per_week * price / m.staked_tvl * 100 =
      (p.alloc_points : ℚ) / (mcd.total_alloc_points : ℚ)
      * mcd.rewards_per_week * price * 100 / m.staked_tvl := by
    ring
  rcases htype with hU | hE
  · have he := uni_pool_eval env p mcd pt m price hpt hm htot htvl hprice
    simp [calculate_supply_aprs, supplyAprStep, hpt, pyattr, hm, hU, he,
      FarmUpdate.format_for_db, uniFarmUpdate, harith, Except.map]
  · have he := single_pool_eval_some env p mcd pt m price hpt hm htot htvl hprice
    simp [calculate_supply_aprs, supplyAprStep, hpt, pyattr, hm, hE, he,
      FarmUpdate.format_for_db, singleFarmUpdate, harith, Except.map]

/-- C1 witness: the LP pool `pW1` (1 of 2 allocation points, 7 BRL per week,
price 2, staked TVL 10) gets the formula value (70) as weekly APR. -/
theorem calculate_supply_aprs_weekly_formula_witness :
    (calculate_supply_aprs envW mcdW [pW1]).map
        (List.map (fun fu => fu.pool.apr_info.apr_weekly)) =
      .ok [some ((pW1.alloc_points : ℚ) / (mcdW.total_alloc_points : ℚ)
        * mcdW.rewards_per_week * 2 * 100 / mW.staked_tvl)] :=
  calculate_supply_aprs_weekly_formula envW mcdW pW1 tokA mW 2 rfl (Or.inl rfl) rfl
    (by decide) (by decide) rfl

/-- C3: contrary to the spec, a pool whose metrics report zero staked TVL
makes the APR computation raise `ZeroDivisionError` (in both the LP and the
single-stake branch) instead of propagating a null APR. -/
theorem zero_staked_tvl_raises :
    calculate_supply_aprs envW mcdW [pZeroErc] = .error .zeroDivisionError ∧
    calculate_supply_aprs envW mcdW [pZeroUni] = .error .zeroDivisionError :=
  ⟨rfl, rfl⟩

/-- C9: in `_get_single_pool_info`, a weekly APR of exactly zero yields
`None` daily APR, yearly APR and yearly APY, because the guards test
truthiness. -/
theorem single_zero_weekly_all_none (env : Env) (mcd : MasterChefData)
    (p : PoolInfo) (pt : PoolToken) (m : Metrics) (price : ℚ)
    (hpt : p.pool_token = some pt) (hm : p.metrics = some m)
    (htot : (mcd.total_alloc_points : ℚ) ≠ 0) (htvl : m.staked_tvl ≠ 0)
    (hprice : env.prices (REWARD_TOKEN_ADDRESS.toLower) = some price)
    (hzero : (p.alloc_points : ℚ) / (mcd.total_alloc_points : ℚ)
      * mcd.rewards_per_week * price / m.staked_tvl * 100 = 0) :
    (_get_single_pool_info env p mcd).map (fun fu =>
      (fu.pool.apr_info.apr_weekly, fu.pool.apr_info.apr_daily,
       fu.pool.apr_info.apr_yearly, fu.pool.apr_info.apy_yearly)) =
      .ok (some 0, none, none, none) := by
  rw [single_pool_eval_some env p mcd pt m price hpt hm htot htvl hprice]
  simp [singleFarmUpdate, truthyMap, hzero, Except.map]

/-- C9 witness: the zero-allocation single-stake pool `pW7` gets weekly APR
0 and `None` for the daily, yearly and APY fields. -/
theorem single_zero_weekly_all_none_witness :
    (_get_single_pool_info envW pW7 mcdW).map (fun fu =>
      (fu.pool.apr_info.apr_weekly, fu.pool.apr_info.apr_daily,
       fu.pool.apr_info.apr_yearly, fu.pool.apr_info.apy_yearly)) =
      .ok (some 0, none, none, none) :=
  single_zero_weekly_all_none envW mcdW pW7 tokE mW 2 rfl rfl
    (by decide) (by decide) rfl (by norm_num [pW7, mcdW, mW])

/-- Shape of the APR record of any farm update produced by the
`calculate_supply_aprs` loop step. -/
theorem supplyAprStep_apr_shape (env : Env) (mcd : MasterChefData) (p : PoolInfo)
    (fu : FarmUpdate) (hok : supplyAprStep env mcd p = .ok (some fu)) :
    (∃ wk : ℚ, fu.pool.yield_type = YieldType.LP_STAKE ∧
      fu.pool.apr_info.apr_weekly = some wk ∧
      fu.pool.apr_info.apr_daily = some (wk / 7) ∧
      fu.pool.apr_info.apr_yearly = some (wk * 52) ∧
      fu.pool.apr_info.apy_yearly = some (env.calculate_apy (wk * 52))) ∨
    (∃ weekly : Option ℚ, fu.pool.yield_type = YieldType.SINGLE_STAKE ∧
      fu.pool.apr_info.apr_weekly = weekly ∧
      fu.pool.apr_info.apr_daily = truthyMap (fun w => w / 7) weekly ∧
      fu.pool.apr_info.apr_yearly = truthyMap (fun w => w * 52) weekly ∧
      fu.pool.apr_info.apy_yearly =
        truthyMap env.calculate_apy (truthyMap (fun w => w * 52) weekly)) := by
  unfold supplyAprStep at hok
  split at hok
  · simp at hok
  next pt hptE =>
    split at hok
    · split at hok
      · split at hok
        · simp at hok
        next fu1 huni =>
          have hfu : fu1 = fu := by simpa using hok
          subst hfu
          left
          simp only [_get_uni_pool_info] at huni
          split at huni
          · simp at huni
          next m2 hm2 =>
            split at huni
            · simp at huni
            next share hshare =>
              split at huni
              · simp at huni
              next price2 hprice2 =>
                split at huni
                · simp at huni
                next w2 hw2 =>
                  split at huni
                  · simp at huni
                  next pt2 hpt2 =>
                    injection huni with hrec
                    refine ⟨w2 * 100, ?_, ?_, ?_, ?_, ?_⟩ <;> rw [← hrec]
      · simp at hok
    · split at hok
      · split at hok
        · split at hok
          · simp at hok
          next fu1 hsingle =>
            have hfu : fu1 = fu := by simpa using hok
            subst hfu
            right
            simp only [_get_single_pool_info] at hsingle
            split at hsingle
            · simp at hsingle
            next share hshare =>
              split at hsingle
              · simp at hsingle
              next price2 hprice2 =>
                split at hsingle
                · simp at hsingle
                next weekly hweekly =>
                  split at hsingle
                  · simp at hsingle
                  next a_tok hat =>
                    injection hsingle with hrec
                    refine ⟨weekly, ?_, ?_, ?_, ?_, ?_⟩ <;> rw [← hrec]
        · simp at hok
      · simp at hok

/-- Evaluation of the `calculate_supply_aprs` loop step on the concrete
single-stake pool `pW4`. -/
theorem step_pW4 : supplyAprStep envW mcdW pW4 = .ok (some fuW4) := by
  have he := single_pool_eval_some envW pW4 mcdW tokE mW 2 rfl rfl
    (by norm_num [mcdW]) (by norm_num [mW]) rfl
  have hz : (pW4.alloc_points : ℚ) / (mcdW.total_alloc_points : ℚ)
      * mcdW.rewards_per_week * 2 / mW.staked_tvl * 100 = 70 := by
    norm_num [pW4, mcdW, mW]
  rw [hz] at he
  have hstep : supplyAprStep envW mcdW pW4 =
      match _get_single_pool_info envW pW4 mcdW with
      | .error e => .error e
      | .ok fu => .ok (some fu) := rfl
  rw [hstep, he]
  exact rfl

/-- C4: whenever the loop step produced a farm update whose yearly APR is
present, its yearly APY is `calculate_apy` applied to that yearly APR. -/
theorem apy_yearly_is_compound (env : Env) (mcd : MasterChefData) (p : PoolInfo)
    (fu : FarmUpdate) (y : ℚ)
    (hok : supplyAprStep env mcd p = .ok (some fu))
    (hy : fu.pool.apr_info.apr_yearly = some y) :
    fu.pool.apr_info.apy_yearly = some (env.calculate_apy y) := by
  rcases supplyAprStep_apr_shape env mcd p fu hok with
    ⟨wk, _, _, _, hyr, hapy⟩ | ⟨weekly, _, _, _, hyr, hapy⟩
  · rw [hyr] at hy
    obtain rfl : wk * 52 = y := Option.some.inj hy
    exact hapy
  · rw [hyr] at hy
    cases weekly with
    | none => simp [truthyMap] at hy
    | some w =>
      by_cases hw : w = 0
      · simp [truthyMap, hw] at hy
      · simp only [truthyMap, if_neg hw] at hy hapy
        obtain rfl : w * 52 = y := Option.some.inj hy
        have h52 : w * 52 ≠ 0 := mul_ne_zero hw (by norm_num)
        rw [hapy, if_neg h52]

/-- C4 witness: the single-stake pool `pW4` gets yearly APR 3640 and yearly
APY `calculate_apy 3640`. -/
theorem apy_yearly_is_compound_witness :
    supplyAprStep envW mcdW pW4 = .ok (some fuW4) ∧
    fuW4.pool.apr_info.apr_yearly = some 3640 ∧
    fuW4.pool.apr_info.apy_yearly = some (envW.calculate_apy 3640) :=
  ⟨step_pW4, by norm_num [fuW4, singleFarmUpdate, truthyMap],
    apy_yearly_is_compound envW mcdW pW4 fuW4 3640 step_pW4
      (by norm_num [fuW4, singleFarmUpdate, truthyMap])⟩

/-- C7 counterexample: the zero-allocation single-stake pool `pW7` has a
computed weekly APR of exactly 0, yet its daily and yearly APR are `None`,
not 0/7 and 0×52 as the claim requires. -/
theorem zero_weekly_apr_scaling_violated :
    (calculate_supply_aprs envW mcdW [pW7]).map (List.map (fun fu =>
      (fu.pool.apr_info.apr_weekly, fu.pool.apr_info.apr_daily,
       fu.pool.apr_info.apr_yearly))) = .ok [(some 0, none, none)] ∧
    (calculate_supply_aprs envW mcdW [pW7]).map (List.map (fun fu =>
      (fu.pool.apr_info.apr_weekly, fu.pool.apr_info.apr_daily,
       fu.pool.apr_info.apr_yearly))) ≠
      .ok [(some 0, some (0 / 7), some (0 * 52))] := by
  have he := single_pool_eval_some envW pW7 mcdW tokE mW 2 rfl rfl
    (by norm_num [mcdW]) (by norm_num [mW]) rfl
  have hz : (pW7.alloc_points : ℚ) / (mcdW.total_alloc_points : ℚ)
      * mcdW.rewards_per_week * 2 / mW.staked_tvl * 100 = 0 := by
    norm_num [pW7, mcdW, mW]
  rw [hz] at he
  have h1 : (calculate_supply_aprs envW mcdW [pW7]).map (List.map (fun fu =>
      (fu.pool.apr_info.apr_weekly, fu.pool.apr_info.apr_daily,
       fu.pool.apr_info.apr_yearly))) = .ok [(some 0, none, none)] := by
    have hstep : calculate_supply_aprs envW mcdW [pW7] =
        match _get_single_pool_info envW pW7 mcdW with
        | .error e => .error e
        | .ok fu => .ok [fu.format_for_db] := rfl
    rw [hstep, he]
    simp [FarmUpdate.format_for_db, singleFarmUpdate, truthyMap, Except.map]
  refine ⟨h1, ?_⟩
  rw [h1]
  simp

/-- C7 (amended): for every pool with a computed weekly APR w, an LP pool —
and a single-stake pool whenever w is nonzero — gets daily APR w/7 and
yearly APR 52w; a single-stake pool with w = 0 gets `None` for both. -/
theorem apr_daily_yearly_scaling (env : Env) (mcd : MasterChefData) (p : PoolInfo)
    (fu : FarmUpdate) (w : ℚ)
    (hok : supplyAprStep env mcd p = .ok (some fu))
    (hw : fu.pool.apr_info.apr_weekly = some w) :
    ((fu.pool.yield_type = YieldType.LP_STAKE ∨ w ≠ 0) →
      fu.pool.apr_info.apr_daily = some (w / 7) ∧
      fu.pool.apr_info.apr_yearly = some (w * 52)) ∧
    (w = 0 → fu.pool.yield_type = YieldType.SINGLE_STAKE →
      fu.pool.apr_info.apr_daily = none ∧ fu.pool.apr_info.apr_yearly = none) := by
  rcases supplyAprStep_apr_shape env mcd p fu hok with
    ⟨wk, hyt, hwk, hd, hyr, _⟩ | ⟨weekly, hyt, hwk, hd, hyr, _⟩
  · rw [hwk] at hw
    obtain rfl : wk = w := Option.some.inj hw
    constructor
    · exact fun _ => ⟨hd, hyr⟩
    · intro _ hs
      rw [hyt] at hs
      simp at hs
  · rw [hwk] at hw
    subst hw
    constructor
    · rintro (hlp | hw0)
      · rw [hyt] at hlp
        simp at hlp
      · rw [hd, hyr]
        simp [truthyMap, if_neg hw0]
    · intro hw0 _
      rw [hd, hyr]
      simp [truthyMap, hw0]

/-- C7 witness: the single-stake pool `pW4` has weekly APR 70 ≠ 0, daily APR
70/7 and yearly APR 70×52. -/
theorem apr_daily_yearly_scaling_witness :
    fuW4.pool.apr_info.apr_daily = some (70 / 7) ∧
    fuW4.pool.apr_info.apr_yearly = some (70 * 52) :=
  (apr_daily_yearly_scaling envW mcdW pW4 fuW4 70 step_pW4 rfl).1 (Or.inr (by norm_num))

/-- C5 (amended): a pool whose token is classified as a known type other
than UNI or ERC20 keeps its metrics untouched in `get_pool_metrics` and
contributes no record to `calculate_supply_aprs`; a pool whose token matched
no probe at all (`pool_token` is None) instead raises `AttributeError` in
both functions. -/
theorem unmatched_token_excluded (env : Env) (mcd : MasterChefData)
    (p : PoolInfo) (ps : List PoolInfo)
    (h : ∀ pt, p.pool_token = some pt →
      pt.type ≠ TokenTypeEnum.UNI ∧ pt.type ≠ TokenTypeEnum.ERC20) :
    get_pool_metrics env p = (pyattr p.pool_token).map (fun _ => p) ∧
    calculate_supply_aprs env mcd (p :: ps) =
      (pyattr p.pool_token).bind (fun _ => calculate_supply_aprs env mcd ps) := by
  cases hp : p.pool_token with
  | none =>
    constructor
    · simp [get_pool_metrics, hp, pyattr, Except.map]
    · simp [calculate_supply_aprs, supplyAprStep, hp, pyattr, Except.bind]
  | some pt =>
    obtain ⟨h1, h2⟩ := h pt hp
    constructor
    · simp [get_pool_metrics, hp, pyattr, Except.map, h1, h2]
    · cases hrest : calculate_supply_aprs env mcd ps with
      | error e =>
        simp [calculate_supply_aprs, supplyAprStep, hp, pyattr, Except.bind,
          h1, h2, hrest]
      | ok rest =>
        simp [calculate_supply_aprs, supplyAprStep, hp, pyattr, Except.bind,
          h1, h2, hrest]

/-- C5 witness: the curve-classified pool `pCurve` passes through
`get_pool_metrics` unchanged (no metrics) and yields no APR record. -/
theorem unmatched_token_excluded_witness :
    get_pool_metrics envW pCurve = .ok pCurve ∧
    calculate_supply_aprs envW mcdW [pCurve] = .ok [] := by
  have h := unmatched_token_excluded envW mcdW pCurve []
    (fun pt hpt => by
      rw [show pCurve.pool_token = some tokC from rfl] at hpt
      obtain rfl : tokC = pt := Option.some.inj hpt
      exact ⟨by decide, by decide⟩)
  exact ⟨h.1.trans rfl, h.2.trans rfl⟩

/-- C5 counterexample: a pool whose token was not classified at all does not
get quietly excluded — both `get_pool_metrics` and `calculate_supply_aprs`
raise `AttributeError` on it. -/
theorem unclassified_token_raises :
    get_pool_metrics envW pNone = .error .attributeError ∧
    calculate_supply_aprs envW mcdW [pNone] = .error .attributeError ∧
    calculate_supply_aprs envW mcdW [pNone] ≠ .ok [] := by
  refine ⟨rfl, rfl, ?_⟩
  intro hcon
  rw [show calculate_supply_aprs envW mcdW [pNone] =
    Except.error PyErr.attributeError from rfl] at hcon
  exact Except.noConfusion hcon

/-- Every member of the `setdefault` fold is either from the accumulator or
the first occurrence of its address in the processed list. -/
theorem mem_dedup_find (ps : List PoolInfo) (acc : List PoolInfo) (pi : PoolInfo)
    (hmem : pi ∈ ps.foldl insertPool acc) :
    pi ∈ acc ∨ ((∀ q ∈ acc, q.address ≠ pi.address) ∧
      ps.find? (fun q => q.address == pi.address) = some pi) := by
  induction ps generalizing acc with
  | nil => exact Or.inl hmem
  | cons p rest ih =>
    simp only [List.foldl_cons] at hmem
    rcases ih (insertPool acc p) hmem with hins | ⟨hfresh, hfind⟩
    · by_cases hdup : (acc.any (fun q => q.address == p.address)) = true
      · rw [insertPool, if_pos hdup] at hins
        exact Or.inl hins
      · rw [insertPool, if_neg hdup] at hins
        rcases List.mem_append.mp hins with hin | hp
        · exact Or.inl hin
        · have hpi : pi = p := by simpa using hp
          subst hpi
          refine Or.inr ⟨?_, ?_⟩
          · intro q hq habs
            exact hdup (List.any_eq_true.mpr ⟨q, hq, by simp [habs]⟩)
          · simp [List.find?]
    · have hacc : ∀ q ∈ acc, q.address ≠ pi.address := by
        intro q hq
        apply hfresh q
        by_cases hdup : (acc.any (fun q => q.address == p.address)) = true
        · rw [insertPool, if_pos hdup]; exact hq
        · rw [insertPool, if_neg hdup]; exact List.mem_append_left _ hq
      refine Or.inr ⟨hacc, ?_⟩
      have hpa : p.address ≠ pi.address := by
        by_cases hdup : (acc.any (fun q => q.address == p.address)) = true
        · rcases List.any_eq_true.mp hdup with ⟨q0, hq0, hbeq⟩
          have hq0a : q0.address = p.address := by simpa using hbeq
          rw [← hq0a]
          exact hacc q0 hq0
        · apply hfresh p
          rw [insertPool, if_neg hdup]
          exact List.mem_append_right _ (by simp)
      rw [List.find?]
      simp only [show (p.address == pi.address) = false by simpa using hpa]
      exact hfind

/-- The `setdefault` fold keeps the pool addresses duplicate-free. -/
theorem dedup_nodup (ps : List PoolInfo) (acc : List PoolInfo)
    (hacc : (acc.map (fun p => p.address)).Nodup) :
    ((ps.foldl insertPool acc).map (fun p => p.address)).Nodup := by
  induction ps generalizing acc with
  | nil => exact hacc
  | cons p rest ih =>
    simp only [List.foldl_cons]
    apply ih
    by_cases hdup : (acc.any (fun q => q.address == p.address)) = true
    · rw [insertPool, if_pos hdup]; exact hacc
    · rw [insertPool, if_neg hdup]
      have hnot : p.address ∉ acc.map (fun q => q.address) := by
        intro hmem
        rcases List.mem_map.mp hmem with ⟨q, hq, heq⟩
        exact hdup (List.any_eq_true.mpr ⟨q, hq, by simp [heq]⟩)
      rw [List.map_append]
      simp [List.nodup_append, hacc, hnot]

/-- When every key is classified, address-preservingly, and is the address
of some pool of the dictionary, the assignment loop attaches
`classify q.address` to exactly the pools whose address is a key. -/
theorem assignTokens_eval (classify : String → Option PoolToken)
    (hclass : ∀ a, ∃ t, classify a = some t ∧ t.address = a)
    (keys : List String) :
    ∀ dict : List PoolInfo, (∀ a ∈ keys, ∃ q ∈ dict, q.address = a) →
      assignTokens classify dict keys =
        .ok (dict.map (fun q =>
          if keys.contains q.address then { q with pool_token := classify q.address }
          else q)) := by
  induction keys with
  | nil =>
    intro dict hsub
    simp [assignTokens]
  | cons a rest ih =>
    intro dict hsub
    obtain ⟨t, hct, hta⟩ := hclass a
    obtain ⟨q0, hq0, hq0a⟩ := hsub a (List.mem_cons_self a rest)
    have hany : dict.any (fun p => p.address == t.address) = true :=
      List.any_eq_true.mpr ⟨q0, hq0, by simp [hq0a, hta]⟩
    simp only [assignTokens, hct, assignToken, hany, if_true, eq_self_iff_true]
    have hsub2 : ∀ b ∈ rest,
        ∃ q ∈ dict.map (fun p =>
          if p.address == t.address then { p with pool_token := some t } else p),
          q.address = b := by
      intro b hb
      obtain ⟨q1, hq1, hq1b⟩ := hsub b (List.mem_cons_of_mem a hb)
      refine ⟨if q1.address == t.address then { q1 with pool_token := some t } else q1,
        List.mem_map_of_mem _ hq1, ?_⟩
      by_cases hqa : (q1.address == t.address) = true
      · rw [if_pos hqa]; exact hq1b
      · rw [if_neg hqa]; exact hq1b
    rw [ih _ hsub2]
    rw [List.map_map]
    congr 1
    apply List.map_congr_left
    intro q hq
    simp only [Function.comp]
    by_cases hqa : q.address = t.address
    · have h1 : (q.address == t.address) = true := by simp [hqa]
      simp only [h1, if_true]
      simp only [hqa, hta, hct, List.contains_cons]
      simp [ite_self]
    · have h1 : (q.address == t.address) = false := by simp [hqa]
      simp only [h1, Bool.false_eq_true, if_false]
      have h2 : ((a :: rest).contains q.address) = (rest.contains q.address) := by
        have : (q.address == a) = false := by
          simp only [beq_eq_false_iff_ne]
          rw [← hta]
          exact hqa
        rw [List.contains_cons, this, Bool.false_or]
      rw [h2]

/-- C10: `get_pools_info` returns at most one pool per distinct LP token
address; each returned pool carries the data of the lowest pool index with
its address (the first occurrence in `poolInfo` order) and its `pool_token`
is the classification result for its address. -/
theorem get_pools_info_dedup_first (chain : Nat → RawPool)
    (classify : String → Option PoolToken) (n : Nat) (l : List PoolInfo)
    (pi : PoolInfo)
    (hclass : ∀ a, ∃ t, classify a = some t ∧ t.address = a)
    (hok : get_pools_info chain classify n = .ok l)
    (hmem : pi ∈ l) :
    (l.map (fun q => q.address)).Nodup ∧
    pi.pool_token = classify pi.address ∧
    ((List.range n).map (get_pool_info chain)).find?
      (fun q => q.address == pi.address) = some { pi with pool_token := none } := by
  simp only [get_pools_info] at hok
  rw [assignTokens_eval classify hclass _ (dedupPools ((List.range n).map (get_pool_info chain)))
    (by
      intro a ha
      rcases List.mem_map.mp ha with ⟨q, hq, rfl⟩
      exact ⟨q, hq, rfl⟩)] at hok
  have hlmap : l = (dedupPools ((List.range n).map (get_pool_info chain))).map
      (fun q => { q with pool_token := classify q.address }) := by
    have hleq := (Except.ok.inj hok).symm
    rw [hleq]
    apply List.map_congr_left
    intro q hq
    have hcont : (((dedupPools ((List.range n).map (get_pool_info chain))).map
        (fun p => p.address)).contains q.address) = true := by
      exact List.elem_eq_true_of_mem (List.mem_map_of_mem (fun p => p.address) hq)
    rw [if_pos hcont]
  constructor
  · have haddr : l.map (fun q => q.address) =
        (dedupPools ((List.range n).map (get_pool_info chain))).map (fun q => q.address) := by
      rw [hlmap, List.map_map]
      rfl
    rw [haddr]
    exact dedup_nodup _ [] (by simp)
  · rw [hlmap] at hmem
    rcases List.mem_map.mp hmem with ⟨q, hq, rfl⟩
    refine ⟨rfl, ?_⟩
    rcases mem_dedup_find _ [] q hq with h0 | ⟨_, hfind⟩
    · simp at h0
    · have hqmem : q ∈ (List.range n).map (get_pool_info chain) :=
        List.mem_of_find?_eq_some hfind
      rcases List.mem_map.mp hqmem with ⟨i, _, hqi⟩
      have hqnone : q.pool_token = none := by rw [← hqi]; rfl
      have hrw : ({ ({ q with pool_token := classify q.address }) with
          pool_token := none } : PoolInfo) = q := by
        cases q with
        | mk a al df pt mt =>
          simp only at hqnone
          rw [hqnone]
      have haddr2 : ({ q with pool_token := classify q.address } : PoolInfo).address
          = q.address := rfl
      rw [hrw, haddr2]
      exact hfind

/-- C10 witness: with pool rows 0 and 2 sharing the LP token `0xaaa`, the
output keeps the row-0 pool (allocation 5, fee 1) with its classification
attached, and addresses are duplicate-free. -/
theorem get_pools_info_dedup_first_witness :
    (([piW10, pjW10]).map (fun q => q.address)).Nodup ∧
    piW10.pool_token = classifyW piW10.address ∧
    ((List.range 3).map (get_pool_info chainW)).find?
      (fun q => q.address == piW10.address) = some { piW10 with pool_token := none } :=
  get_pools_info_dedup_first chainW classifyW 3 [piW10, pjW10] piW10
    (fun a => ⟨_, rfl, rfl⟩) rfl (by simp)
